import Mathlib

/-!
Verification of the Operation Validation & Pipeline Compilation engine of the
media-manipulation server (`src/main.py`).

The Python source is shallowly embedded: the media directory is a pure
association list from full path strings to file contents, the external
`ffmpeg`/`ffprobe` engine is an oracle parameter, and each tool function is
translated line by line into a pure Lean function that returns the tool's
result string (or the unhandled Python exception it raises), the resulting
filesystem, and the list of engine invocations it performed.

Conventions:
* `os.path.sep` is modelled as the character `/` and `os.path.join(MEDIA_DIR, f)`
  as `"E:/project/" ++ f` (POSIX join semantics, `MEDIA_DIR = "E:/project"`).
* The engine oracle returns `none` on exit code 0; on failure it returns
  `some (returncode, capturedStderr)`.  A successful engine invocation writes
  its output file; a failed one writes nothing (partial output is treated as
  absent, per the stated engine contract).
* Apostrophes occurring in Python message strings are written `\x27`.
-/

/-- A filesystem: an association list from full path strings to file contents. -/
structure FS where
  files : List (String × String)
deriving DecidableEq, Repr

/-- `os.path.exists`. -/
def FS.existsFile (fs : FS) (p : String) : Bool :=
  fs.files.any (fun kv => kv.1 == p)

/-- Content of the file at path `p`, if present. -/
def FS.get (fs : FS) (p : String) : Option String :=
  (fs.files.find? (fun kv => kv.1 == p)).map (fun kv => kv.2)

/-- `os.remove` (removing an absent path is the identity here; call sites
guard with `existsFile` exactly where the Python code does). -/
def FS.remove (fs : FS) (p : String) : FS :=
  ⟨fs.files.filter (fun kv => kv.1 != p)⟩

/-- Create or overwrite the file at `p` with content `c`. -/
def FS.write (fs : FS) (p c : String) : FS :=
  ⟨(fs.remove p).files ++ [(p, c)]⟩

/-- `os.rename src dst`. In every reachable call site `src` exists. -/
def FS.rename (fs : FS) (src dst : String) : FS :=
  match fs.get src with
  | some c => (fs.remove src).write dst c
  | none => fs

/-- The external engine oracle: `none` = exit code 0, `some (rc, stderr)` =
non-zero exit `rc` with captured diagnostic text. -/
def Engine : Type := List String → Option (Nat × String)

/-- Content the engine writes for a successful invocation (opaque function of
the argument list; the claims never depend on actual media bytes). -/
def engineOutput (cmd : List String) : String :=
  String.intercalate " " cmd

/-- Unhandled Python exceptions that the embedded functions can raise. -/
inductive Exn where
  | calledProcessError (returncode : Nat) (cmd : List String)
  | keyError (key : String)
  | typeError
deriving DecidableEq, Repr

/-- `True` iff the result is an unhandled exception escaping the tool. -/
def isExn : Except Exn String → Bool
  | .error _ => true
  | .ok _ => false

/-- A heterogeneous parameter value (`Dict[str, Any]` entries). -/
inductive PValue where
  | int (i : Int)
  | str (s : String)
deriving DecidableEq, Repr

/-- Python `str()` of a parameter value, as used by `str.format`. -/
def pyStr : PValue → String
  | .int i => toString i
  | .str s => s

/-- A parameter dictionary. -/
def Params : Type := List (String × PValue)

/-- Python `repr` of a list of strings, e.g. `[\x27x\x27, \x27y\x27]`. -/
def pyListRepr (l : List String) : String :=
  "[" ++ String.intercalate ", " (l.map (fun s => "\x27" ++ s ++ "\x27")) ++ "]"

/-- `MEDIA_DIR = "E:/project"`; `os.path.join(MEDIA_DIR, f)`. -/
def joinMedia (f : String) : String :=
  "E:/project/" ++ f

/-- `str.lower()`, character-wise (operating on the character list so that
evaluation stays kernel-reducible). -/
def toLowerStr (s : String) : String :=
  ⟨s.data.map Char.toLower⟩

/-- `s.endswith(suffix)`, on the character lists. -/
def strEndsWith (s suffix : String) : Bool :=
  suffix.data.isSuffixOf s.data

/-- `os.path.sep in name` (separator modelled as `/`). -/
def containsSep (name : String) : Bool :=
  name.data.contains '/'

def VIDEO_EXTENSIONS : List String :=
  [".mp4", ".avi", ".mkv", ".mov", ".wmv", ".flv", ".webm"]

def AUDIO_EXTENSIONS : List String :=
  [".aac", ".mp3", ".wav", ".ogg", ".flac", ".m4a"]

/-- `any(f.lower().endswith(ext) for ext in exts)`. -/
def hasExtIn (exts : List String) (f : String) : Bool :=
  exts.any (fun ext => strEndsWith (toLowerStr f) ext)

/-- `", ".join(VIDEO_EXTENSIONS)`. -/
def videoExtList : String :=
  String.intercalate ", " VIDEO_EXTENSIONS

/-- `", ".join(AUDIO_EXTENSIONS)`. -/
def audioExtList : String :=
  String.intercalate ", " AUDIO_EXTENSIONS

/-- The codecs the source allows to be copied into an `.mp4` container
(`['aac', 'mp3']`, line 270). -/
def mp4AllowedCodecs : List String :=
  ["aac", "mp3"]

/-- Whether the output container is governed by the compatibility matrix
(`output_file.lower().endswith('.mp4')`, line 270). -/
def mp4Governed (output_file : String) : Bool :=
  strEndsWith (toLowerStr output_file) ".mp4"

/-- The codec-compatibility check of `merge_audio_video` (line 270): the merge
is rejected exactly when the output is an `.mp4` and the probed codec is not
in the allowed set; every other container is always accepted. -/
def checkCompatibility (output_file codec : String) : Bool :=
  !(mp4Governed output_file && !(mp4AllowedCodecs.contains codec))

/-- `TRANSFORM_PARAMS` (lines 26-33), in source insertion order. -/
def TRANSFORM_PARAMS : List (String × List String) :=
  [("crop", ["x", "y", "width", "height"]),
   ("scale", ["width", "height"]),
   ("rotate", ["angle"]),
   ("flip", ["direction"]),
   ("transpose", ["dir"]),
   ("pad", ["width", "height", "x", "y"])]

/-- `transformation in TRANSFORM_PARAMS` (line 482). -/
def knownTransform (transformation : String) : Bool :=
  TRANSFORM_PARAMS.any (fun kv => kv.1 == transformation)

/-- `TRANSFORM_PARAMS[transformation]` (line 484). -/
def requiredOf (transformation : String) : List String :=
  ((TRANSFORM_PARAMS.find? (fun kv => kv.1 == transformation)).map (fun kv => kv.2)).getD []

/-- `all(p in params for p in required_params)` (line 485). -/
def hasAllParams (transformation : String) (params : Params) : Bool :=
  (requiredOf transformation).all (fun p => params.any (fun kv => kv.1 == p))

/-- `params[k]` as used by `str.format(**params)`: renders the value, raises
`KeyError(k)` when the key is absent. -/
def fmtGet (params : Params) (k : String) : Except Exn String :=
  match params.find? (fun kv => kv.1 == k) with
  | some kv => .ok (pyStr kv.2)
  | none => .error (.keyError k)

/-- Outcome of the filter-compilation section of `transform_video`
(lines 492-510): a compiled filter string, an early validation `return`,
or an unhandled exception. -/
inductive CompileR where
  | ok (filter : String)
  | reject (msg : String)
  | raise (e : Exn)
deriving DecidableEq, Repr

/-- Lift a format-evaluation result into `CompileR`. -/
def compileOf : Except Exn String → CompileR
  | .ok f => .ok f
  | .error e => .raise e

/-- Lines 492-510 of `transform_video`: per-kind parameter checks and
filter-expression compilation.  Note that in the `pad` branch the source
computes `color = params.get("color", "black")` (line 509) but then never
uses it: line 510 interpolates `{color}` out of `params` directly, so an
absent `color` key raises `KeyError`. -/
def compileFilter (transformation : String) (params : Params) : CompileR :=
  if transformation == "crop" then
    compileOf (do
      let w ← fmtGet params "width"
      let h ← fmtGet params "height"
      let x ← fmtGet params "x"
      let y ← fmtGet params "y"
      pure ("crop=" ++ w ++ ":" ++ h ++ ":" ++ x ++ ":" ++ y))
  else if transformation == "scale" then
    compileOf (do
      let w ← fmtGet params "width"
      let h ← fmtGet params "height"
      pure ("scale=" ++ w ++ ":" ++ h))
  else if transformation == "rotate" then
    compileOf (do
      let a ← fmtGet params "angle"
      pure ("rotate=" ++ a ++ "*PI/180"))
  else if transformation == "flip" then
    match params.find? (fun kv => kv.1 == "direction") with
    | none => .raise (.keyError "direction")
    | some kv =>
      match kv.2 with
      | .str d =>
        if d == "horizontal" then .ok "hflip"
        else if d == "vertical" then .ok "vflip"
        else .reject "Error: direction must be \x27horizontal\x27 or \x27vertical\x27"
      | .int _ => .reject "Error: direction must be \x27horizontal\x27 or \x27vertical\x27"
  else if transformation == "transpose" then
    match params.find? (fun kv => kv.1 == "dir") with
    | none => .raise (.keyError "dir")
    | some kv =>
      match kv.2 with
      | .int d =>
        if !(0 ≤ d && d ≤ 3) then .reject "Error: dir must be between 0 and 3"
        else .ok ("transpose=" ++ toString d)
      | .str _ => .raise .typeError
  else
    let _color := ((params.find? (fun kv => kv.1 == "color")).map (fun kv => kv.2)).getD (.str "black")
    compileOf (do
      let w ← fmtGet params "width"
      let h ← fmtGet params "height"
      let x ← fmtGet params "x"
      let y ← fmtGet params "y"
      let c ← fmtGet params "color"
      pure ("pad=" ++ w ++ ":" ++ h ++ ":" ++ x ++ ":" ++ y ++ ":" ++ c))

deriving instance DecidableEq for Except

/-- Result of a single-shot tool: the returned string or escaped exception,
the filesystem after the call, and the engine invocations performed. -/
structure OpOut where
  result : Except Exn String
  fs : FS
  invoked : List (List String)
deriving DecidableEq, Repr

/-- `transform_video` (lines 474-523). -/
def transform_video (engine : Engine) (fs : FS) (input_file transformation : String)
    (params : Params) (output_file : String) : OpOut :=
  let input_path := joinMedia input_file
  let output_path := joinMedia output_file
  if !(fs.existsFile input_path) then
    ⟨.ok s!"Error: Input file {input_file} not found.", fs, []⟩
  else if !(knownTransform transformation) then
    ⟨.ok ("Error: Invalid transformation. Must be one of " ++
        pyListRepr (TRANSFORM_PARAMS.map (fun kv => kv.1))), fs, []⟩
  else if !(hasAllParams transformation params) then
    ⟨.ok ("Error: Missing parameters for " ++ transformation ++ ". Required: " ++
        pyListRepr (requiredOf transformation)), fs, []⟩
  else if fs.existsFile output_path then
    ⟨.ok s!"Error: Output file {output_file} already exists.", fs, []⟩
  else if !(hasExtIn VIDEO_EXTENSIONS output_file) then
    ⟨.ok ("Error: Output file must have a video extension (" ++ videoExtList ++ ")"), fs, []⟩
  else
    match compileFilter transformation params with
    | .reject msg => ⟨.ok msg, fs, []⟩
    | .raise e => ⟨.error e, fs, []⟩
    | .ok filter_str =>
      let cmd := ["ffmpeg", "-i", input_path, "-vf", filter_str, "-c:a", "copy", output_path]
      match engine cmd with
      | none => ⟨.ok s!"Successfully transformed video to {output_file}",
          fs.write output_path (engineOutput cmd), [cmd]⟩
      | some (_, stderr) => ⟨.ok s!"Error transforming video: {stderr}", fs, [cmd]⟩

/-- `trim_video` (lines 182-201). -/
def trim_video (engine : Engine) (fs : FS) (input_file start_time duration output_file : String) :
    OpOut :=
  let input_path := joinMedia input_file
  let output_path := joinMedia output_file
  if containsSep input_file || containsSep output_file then
    ⟨.ok "Error: File names cannot contain directory separators.", fs, []⟩
  else if !(fs.existsFile input_path) then
    ⟨.ok s!"Error: Input file {input_file} not found.", fs, []⟩
  else if fs.existsFile output_path then
    ⟨.ok s!"Error: Output file {output_file} already exists.", fs, []⟩
  else if !(hasExtIn VIDEO_EXTENSIONS output_file) then
    ⟨.ok ("Error: Output file must have a video extension (" ++ videoExtList ++ ")"), fs, []⟩
  else
    let cmd := ["ffmpeg", "-ss", start_time, "-t", duration, "-i", input_path, "-c", "copy",
        output_path]
    match engine cmd with
    | none => ⟨.ok s!"Successfully trimmed video to {output_file}",
        fs.write output_path (engineOutput cmd), [cmd]⟩
    | some (_, stderr) => ⟨.ok s!"Error trimming video: {stderr}", fs, [cmd]⟩

/-- Result of `merge_audio_video`: the returned string, the filesystem, whether
the codec probe (`get_audio_codec`) ran, and the engine invocations. -/
structure MergeOut where
  result : String
  fs : FS
  probed : Bool
  invoked : List (List String)
deriving DecidableEq, Repr

/-- `merge_audio_video` (lines 245-286).  `probe` models `get_audio_codec`:
it returns the codec name, `"none"` for no audio stream, or `"error"` when
the probe invocation fails. -/
def merge_audio_video (engine : Engine) (probe : String → String) (fs : FS)
    (video_file audio_file output_file : String) : MergeOut :=
  let video_path := joinMedia video_file
  let audio_path := joinMedia audio_file
  let output_path := joinMedia output_file
  if containsSep video_file || containsSep audio_file || containsSep output_file then
    ⟨"Error: File names cannot contain directory separators.", fs, false, []⟩
  else if !(fs.existsFile video_path) then
    ⟨s!"Error: Video file {video_file} not found.", fs, false, []⟩
  else if !(fs.existsFile audio_path) then
    ⟨s!"Error: Audio file {audio_file} not found.", fs, false, []⟩
  else if !(hasExtIn AUDIO_EXTENSIONS audio_file) then
    ⟨("Error: Audio file must have an audio extension (" ++ audioExtList ++ ")"), fs, false, []⟩
  else if fs.existsFile output_path then
    ⟨s!"Error: Output file {output_file} already exists.", fs, false, []⟩
  else if !(hasExtIn VIDEO_EXTENSIONS output_file) then
    ⟨("Error: Output file must have a video extension (" ++ videoExtList ++ ")"), fs, false, []⟩
  else
    let audio_codec := probe audio_path
    if audio_codec == "none" then
      ⟨"Error: Audio file has no audio stream.", fs, true, []⟩
    else if audio_codec == "error" then
      ⟨"Error: Could not determine audio codec.", fs, true, []⟩
    else if !(checkCompatibility output_file audio_codec) then
      ⟨s!"Error: Audio codec {audio_codec} is not compatible with MP4 output. Use AAC or MP3.",
        fs, true, []⟩
    else
      let cmd := ["ffmpeg", "-i", video_path, "-i", audio_path, "-c", "copy", "-map", "0:v:0",
          "-map", "1:a:0", output_path]
      match engine cmd with
      | none => ⟨s!"Successfully merged audio and video to {output_file}",
          fs.write output_path (engineOutput cmd), true, [cmd]⟩
      | some (_, stderr) => ⟨s!"Error merging audio and video: {stderr}", fs, true, [cmd]⟩

/-- The input-validation loop of `concatenate_videos` (lines 218-224): walks
the input list accumulating the lines written into the already-created
temporary list file; on the first invalid input it returns the error message
together with the content written so far (which stays on disk, because the
early `return` skips every cleanup). -/
def concatLoop (fs : FS) : List String → String → Except (String × String) String
  | [], acc => .ok acc
  | f :: rest, acc =>
    if containsSep f then
      .error ("Error: Input file names cannot contain directory separators.", acc)
    else if !(fs.existsFile (joinMedia f)) then
      .error (s!"Error: Input file {f} not found.", acc)
    else
      concatLoop fs rest (acc ++ "file \x27" ++ joinMedia f ++ "\x27\n")

/-- `concatenate_videos` (lines 205-241).  `tmpfile_path` is the fresh name
the `tempfile` module hands out for the concat list file; opening the
`NamedTemporaryFile` creates it before any input is validated. -/
def concatenate_videos (engine : Engine) (fs : FS) (tmpfile_path : String)
    (input_files : List String) (output_file : String) : OpOut :=
  let output_path := joinMedia output_file
  if containsSep output_file then
    ⟨.ok "Error: Output file name cannot contain directory separators.", fs, []⟩
  else if fs.existsFile output_path then
    ⟨.ok s!"Error: Output file {output_file} already exists.", fs, []⟩
  else if !(hasExtIn VIDEO_EXTENSIONS output_file) then
    ⟨.ok ("Error: Output file must have a video extension (" ++ videoExtList ++ ")"), fs, []⟩
  else
    match concatLoop fs input_files "" with
    | .error (msg, acc) => ⟨.ok msg, fs.write tmpfile_path acc, []⟩
    | .ok content =>
      let fs1 := fs.write tmpfile_path content
      let cmd := ["ffmpeg", "-f", "concat", "-safe", "0", "-i", tmpfile_path, "-c", "copy",
          output_path]
      match engine cmd with
      | none => ⟨.ok s!"Successfully concatenated videos to {output_file}",
          (fs1.write output_path (engineOutput cmd)).remove tmpfile_path, [cmd]⟩
      | some (_, stderr) => ⟨.ok s!"Error concatenating videos: {stderr}",
          fs1.remove tmpfile_path, [cmd]⟩

/-- One effect group of a `FilterTemplate` document: the `curves` group. -/
structure Curves where
  red : String
  green : String
  blue : String
deriving DecidableEq, Repr

/-- The `eq` (contrast/saturation) group. -/
structure EqGroup where
  contrast : String
  saturation : String
deriving DecidableEq, Repr

/-- The `vignette` group. -/
structure Vignette where
  angle : String
deriving DecidableEq, Repr

/-- The `noise` group. -/
structure Noise where
  strength : String
  flags : String
deriving DecidableEq, Repr

/-- A parsed filter-template document: each top-level key is optional
(`"curves" in template` tests presence).  Scalar values are kept in their
rendered (f-string) form, since they are only ever interpolated into filter
expressions. -/
structure Template where
  curves : Option Curves
  eqg : Option EqGroup
  vignette : Option Vignette
  fps : Option String
  noise : Option Noise
deriving DecidableEq, Repr

/-- Which of the three pipeline stage groups an engine invocation belongs to. -/
inductive StageKind where
  | color
  | fps
  | noise
deriving DecidableEq, Repr, BEq

/-- `f"temp_{len(temp_files)}.mp4"` (lines 709, 722, 736): the temporary
artifact name for the stage when `i` temporaries were allocated before it. -/
def tempName (i : Nat) : String :=
  "temp_" ++ toString i ++ ".mp4"

/-- The fused color-stage filter (lines 704-707). -/
def colorFilter (c : Curves) (e : EqGroup) (v : Vignette) : String :=
  "curves=red=\x27" ++ c.red ++ "\x27:green=\x27" ++ c.green ++ "\x27:blue=\x27" ++ c.blue ++
    "\x27,eq=contrast=" ++ e.contrast ++ ":saturation=" ++ e.saturation ++
    ",vignette=angle=" ++ v.angle

/-- The noise-stage filter (line 735). -/
def noiseFilter (n : Noise) : String :=
  "noise=c0s=" ++ n.strength ++ ":c0f=" ++ n.flags

/-- Encoder arguments of the fused color stage (line 713). -/
def colorEncArgs : List String :=
  ["-c:v", "libx264", "-preset", "ultrafast", "-c:a", "copy"]

/-- Encoder arguments of the fps and noise stages (lines 726, 740). -/
def stdEncArgs : List String :=
  ["-c:v", "libx264", "-c:a", "copy"]

/-- The mutable locals of the pipeline loop in `apply_filter_template`:
`current_file`, `temp_files`, plus the filesystem and the observation traces
(engine invocations made, stage groups completed). -/
structure PipeSt where
  current : String
  temps : List String
  fs : FS
  invoked : List (List String)
  stagesRun : List StageKind
deriving DecidableEq, Repr

/-- A raised `CalledProcessError`: return code and the failing argument list. -/
def PipeFail : Type := Nat × List String

/-- One stage of the pipeline (each of the three `if` blocks at lines 699-744):
allocates `temp_{len(temp_files)}.mp4`, appends it to `temp_files`, and runs
the engine with `check=True` — a non-zero exit raises `CalledProcessError`
and nothing is written; a zero exit writes the temporary artifact and makes
it the new `current_file`. -/
def runStage (engine : Engine) (st : PipeSt) (k : StageKind) (filter : String)
    (encArgs : List String) : Option PipeFail × PipeSt :=
  let temp_output := tempName st.temps.length
  let cmd := ["ffmpeg", "-i", joinMedia st.current, "-vf", filter] ++ encArgs ++
      [joinMedia temp_output]
  match engine cmd with
  | none =>
    (none, ⟨temp_output, st.temps ++ [temp_output],
        st.fs.write (joinMedia temp_output) (engineOutput cmd),
        st.invoked ++ [cmd], st.stagesRun ++ [k]⟩)
  | some (rc, _) =>
    (some (rc, cmd), ⟨st.current, st.temps ++ [temp_output], st.fs,
        st.invoked ++ [cmd], st.stagesRun⟩)

/-- Run a stage unless an exception is already propagating. -/
def stepStage (engine : Engine) (acc : Option PipeFail × PipeSt) (k : StageKind)
    (filter : String) (encArgs : List String) : Option PipeFail × PipeSt :=
  match acc.1 with
  | some e => (some e, acc.2)
  | none => runStage engine acc.2 k filter encArgs

/-- The first `if` block (lines 699-717): the fused color stage runs iff
`curves`, `eq` *and* `vignette` are all present in the template document. -/
def colorStep (engine : Engine) (t : Template) (acc : Option PipeFail × PipeSt) :
    Option PipeFail × PipeSt :=
  match t.curves, t.eqg, t.vignette with
  | some c, some e, some v => stepStage engine acc .color (colorFilter c e v) colorEncArgs
  | _, _, _ => acc

/-- The second `if` block (lines 720-730): the fps stage, if present. -/
def fpsStep (engine : Engine) (t : Template) (acc : Option PipeFail × PipeSt) :
    Option PipeFail × PipeSt :=
  match t.fps with
  | some f => stepStage engine acc .fps ("fps=fps=" ++ f) stdEncArgs
  | none => acc

/-- The third `if` block (lines 733-744): the noise stage, if present. -/
def noiseStep (engine : Engine) (t : Template) (acc : Option PipeFail × PipeSt) :
    Option PipeFail × PipeSt :=
  match t.noise with
  | some n => stepStage engine acc .noise (noiseFilter n) stdEncArgs
  | none => acc

/-- The stage sequence of `apply_filter_template` (lines 695-744): color
stage, then fps stage, then noise stage, each skipped when its group is
absent; a raised `CalledProcessError` (first component) propagates past the
remaining stages. -/
def runPipeline (engine : Engine) (fs : FS) (input_file : String) (t : Template) :
    Option PipeFail × PipeSt :=
  noiseStep engine t (fpsStep engine t (colorStep engine t (none, ⟨input_file, [], fs, [], []⟩)))

/-- Result of one `apply_filter_template` call. -/
structure RunOut where
  result : Except Exn String
  fs : FS
  invoked : List (List String)
  temps : List String
  stagesRun : List StageKind
deriving DecidableEq, Repr

/-- `apply_filter_template` (lines 676-754).  `templates` models the
template-storage collaborator: the check `os.path.exists(template_path)`
together with `json.load` of `E:/project/filters/<name>.json`.  Note the two
behaviours this translation preserves faithfully: the stage invocations use
`check=True` with no surrounding `try`, so a failing stage raises
`CalledProcessError` past the cleanup code; and the final
`os.rename(current_file, output_path)` renames the *original input* when the
template produced no stage at all. -/
def apply_filter_template (engine : Engine) (templates : String → Option Template)
    (fs : FS) (input_file template_name output_file : String) : RunOut :=
  let input_path := joinMedia input_file
  let output_path := joinMedia output_file
  if !(fs.existsFile input_path) then
    ⟨.ok s!"Error: Input file {input_file} not found.", fs, [], [], []⟩
  else
    match templates template_name with
    | none => ⟨.ok s!"Error: Filter template {template_name} not found.", fs, [], [], []⟩
    | some t =>
      if fs.existsFile output_path then
        ⟨.ok s!"Error: Output file {output_file} already exists.", fs, [], [], []⟩
      else if !(hasExtIn VIDEO_EXTENSIONS output_file) then
        ⟨.ok ("Error: Output file must have a video extension (" ++ videoExtList ++ ")"),
          fs, [], [], []⟩
      else
        match runPipeline engine fs input_file t with
        | (some (rc, cmd), st) =>
          ⟨.error (.calledProcessError rc cmd), st.fs, st.invoked, st.temps, st.stagesRun⟩
        | (none, st) =>
          let fs1 := st.fs.rename (joinMedia st.current) output_path
          let fs2 := st.temps.foldl
              (fun acc temp =>
                if acc.existsFile (joinMedia temp) then acc.remove (joinMedia temp) else acc)
              fs1
          ⟨.ok s!"Successfully applied {template_name} filter to {output_file}",
            fs2, st.invoked, st.temps, st.stagesRun⟩

/-- The shape every temporary-name list of a pipeline run has: the `j`-th
allocated name is the fixed literal `temp_j.mp4`. -/
def canonicalTemps (l : List String) : Prop :=
  l = (List.range l.length).map tempName

/-! ### Concrete fixtures used by the closed theorems below -/

/-- An engine that always exits 0. -/
def engOk : Engine := fun _ => none

/-- An engine that fails (exit 1, diagnostic `boom`) exactly on the fps stage
of a 24-fps pipeline and succeeds elsewhere. -/
def engFailFps : Engine := fun cmd =>
  if cmd.contains "fps=fps=24" then some (1, "boom") else none

/-- A media root holding a single input `in.mp4`. -/
def fsIn : FS := ⟨[("E:/project/in.mp4", "ORIG")]⟩

/-- A template with the fused color group and an fps group (two stages). -/
def tplColorFps : Template :=
  ⟨some ⟨"r", "g", "b"⟩, some ⟨"1.2", "0.8"⟩, some ⟨"0.5"⟩, some "24", none⟩

/-- A template with only the noise group (one stage). -/
def tplNoise : Template :=
  ⟨none, none, none, none, some ⟨"10", "t"⟩⟩

/-- A template with none of the effect groups. -/
def tplEmpty : Template :=
  ⟨none, none, none, none, none⟩

/-- A template store exposing the three fixtures by name. -/
def tplStore : String → Option Template := fun n =>
  if n == "vintage" then some tplColorFps
  else if n == "grain" then some tplNoise
  else if n == "empty" then some tplEmpty
  else none

/-- C1: code bug — when the second stage of `apply_filter_template` exits
non-zero, the `CalledProcessError` escapes as an unhandled exception instead
of an error message, and the stage-1 temporary `temp_0.mp4` is left on disk
(no cleanup runs); only the output-absent and input-unchanged parts of the
claim hold. -/
theorem apply_filter_template_stage_failure_leaks_temp_and_raises :
    isExn (apply_filter_template engFailFps tplStore fsIn "in.mp4" "vintage" "out.mp4").result
        = true ∧
    (apply_filter_template engFailFps tplStore fsIn "in.mp4" "vintage" "out.mp4").fs.existsFile
        "E:/project/temp_0.mp4" = true ∧
    (apply_filter_template engFailFps tplStore fsIn "in.mp4" "vintage" "out.mp4").fs.existsFile
        "E:/project/out.mp4" = false ∧
    (apply_filter_template engFailFps tplStore fsIn "in.mp4" "vintage" "out.mp4").fs.get
        "E:/project/in.mp4" = some "ORIG" := by
  decide

/-- C2: code bug — a template with no effect group is not rejected as an
empty pipeline: the run reports success without any engine invocation and
`os.rename` moves the original input to the output name, so the input no
longer exists under its original name. -/
theorem apply_filter_template_empty_template_renames_input :
    (apply_filter_template engOk tplStore fsIn "in.mp4" "empty" "out.mp4").result
        = .ok "Successfully applied empty filter to out.mp4" ∧
    (apply_filter_template engOk tplStore fsIn "in.mp4" "empty" "out.mp4").invoked = [] ∧
    (apply_filter_template engOk tplStore fsIn "in.mp4" "empty" "out.mp4").fs.existsFile
        "E:/project/in.mp4" = false ∧
    (apply_filter_template engOk tplStore fsIn "in.mp4" "empty" "out.mp4").fs.get
        "E:/project/out.mp4" = some "ORIG" := by
  decide

/-- C3 counterexample: two distinct pipeline runs (different filesystems,
inputs and outputs) both allocate the same literal temporary name
`temp_0.mp4`, refuting uniqueness-per-run. -/
theorem tempNames_shared_across_runs :
    (apply_filter_template engOk tplStore ⟨[("E:/project/a.mp4", "A")]⟩
        "a.mp4" "grain" "oa.mp4").temps = ["temp_0.mp4"] ∧
    (apply_filter_template engOk tplStore ⟨[("E:/project/b.mp4", "B")]⟩
        "b.mp4" "grain" "ob.mp4").temps = ["temp_0.mp4"] := by
  decide

/-- C4 counterexample: `transform_video` performs no path-separator check —
with an input name `../in.mp4` (and a file present at the resolved path) the
request is not rejected with an unsafe-name error; it proceeds to invoke the
engine and reports success. -/
theorem transform_video_accepts_separator_name :
    (transform_video engOk ⟨[("E:/project/../in.mp4", "X")]⟩ "../in.mp4" "scale"
        [("width", .int 100), ("height", .int 100)] "out.mp4").result
        = .ok "Successfully transformed video to out.mp4" ∧
    (transform_video engOk ⟨[("E:/project/../in.mp4", "X")]⟩ "../in.mp4" "scale"
        [("width", .int 100), ("height", .int 100)] "out.mp4").invoked.length = 1 := by
  decide

/-- C5 counterexample: in `transform_video` the schema-completeness check runs
*before* the output-collision check — with a missing `y` parameter and an
already-existing output, the reported failure is the missing-parameter
message, not the AlreadyExists message the claimed order requires. -/
theorem transform_video_missing_param_masks_alreadyExists :
    (transform_video engOk ⟨[("E:/project/in.mp4", "ORIG"), ("E:/project/out.mp4", "OLD")]⟩
        "in.mp4" "crop" [("x", .int 1)] "out.mp4").result
        = .ok "Error: Missing parameters for crop. Required: [\x27x\x27, \x27y\x27, \x27width\x27, \x27height\x27]" ∧
    (FS.existsFile ⟨[("E:/project/in.mp4", "ORIG"), ("E:/project/out.mp4", "OLD")]⟩
        "E:/project/out.mp4") = true ∧
    (transform_video engOk ⟨[("E:/project/in.mp4", "ORIG"), ("E:/project/out.mp4", "OLD")]⟩
        "in.mp4" "crop" [("x", .int 1)] "out.mp4").result
        ≠ .ok "Error: Output file out.mp4 already exists." := by
  decide

/-- C6: code bug — a `pad` request without the optional `color` parameter
passes validation (width/height/x/y are the only required parameters) but
then raises `KeyError(\x27color\x27)` from `"pad={width}:{height}:{x}:{y}:{color}".format(**params)`:
the default computed on line 509 is never used, no engine invocation occurs,
and no `pad=...:black` expression is produced. -/
theorem transform_video_pad_without_color_raises_keyError :
    (transform_video engOk fsIn "in.mp4" "pad"
        [("width", .int 100), ("height", .int 50), ("x", .int 0), ("y", .int 0)]
        "out.mp4").result = .error (.keyError "color") ∧
    (transform_video engOk fsIn "in.mp4" "pad"
        [("width", .int 100), ("height", .int 50), ("x", .int 0), ("y", .int 0)]
        "out.mp4").invoked = [] ∧
    (transform_video engOk fsIn "in.mp4" "pad"
        [("width", .int 100), ("height", .int 50), ("x", .int 0), ("y", .int 0)]
        "out.mp4").fs = fsIn := by
  decide

/-- C7 counterexample: a failed input-existence check in `concatenate_videos`
does *not* leave the filesystem untouched — the temporary concat-list file
created before the input loop is still present after the early error return. -/
theorem concatenate_videos_validation_failure_leaks_tmpfile :
    (concatenate_videos engOk ⟨[]⟩ "/tmp/tmpcat1" ["missing.mp4"] "out.mp4").result
        = .ok "Error: Input file missing.mp4 not found." ∧
    (concatenate_videos engOk ⟨[]⟩ "/tmp/tmpcat1" ["missing.mp4"] "out.mp4").fs.existsFile
        "/tmp/tmpcat1" = true ∧
    (FS.existsFile ⟨[]⟩ "/tmp/tmpcat1") = false ∧
    (concatenate_videos engOk ⟨[]⟩ "/tmp/tmpcat1" ["missing.mp4"] "out.mp4").invoked = [] := by
  decide

/-! ### Helper lemmas -/

theorem FS.existsFile_write (fs : FS) (p c : String) : (fs.write p c).existsFile p = true := by
  simp [FS.write, FS.existsFile, FS.remove, List.any_append]

/-- C4 (amended): `trim_video` and `merge_audio_video` reject any referenced
name containing a path separator with the unsafe-name error, for *every*
filesystem (so regardless of whether a file exists at the resolved path),
with no filesystem change and no engine invocation; the original claim fails
for `transform_video`, which has no separator check at all (see the
counterexample). -/
theorem trim_merge_reject_separator_names :
    (∀ (engine : Engine) (fs : FS) (input_file start_time duration output_file : String),
      (containsSep input_file || containsSep output_file) = true →
      trim_video engine fs input_file start_time duration output_file =
        ⟨.ok "Error: File names cannot contain directory separators.", fs, []⟩) ∧
    (∀ (engine : Engine) (probe : String → String) (fs : FS)
        (video_file audio_file output_file : String),
      (containsSep video_file || containsSep audio_file || containsSep output_file) = true →
      merge_audio_video engine probe fs video_file audio_file output_file =
        ⟨"Error: File names cannot contain directory separators.", fs, false, []⟩) := by
  constructor
  · intro engine fs input_file start_time duration output_file h
    simp only [trim_video, h, if_true]
  · intro engine probe fs video_file audio_file output_file h
    simp only [merge_audio_video, h, if_true]

/-- C4 witness: the unsafe-name rejection at concrete inputs. -/
theorem trim_merge_reject_separator_names_witness :
    trim_video engOk ⟨[]⟩ "../a.mp4" "0" "1" "out.mp4" =
      ⟨.ok "Error: File names cannot contain directory separators.", ⟨[]⟩, []⟩ ∧
    merge_audio_video engOk (fun _ => "aac") ⟨[]⟩ "v.mp4" "sub/a.aac" "out.mp4" =
      ⟨"Error: File names cannot contain directory separators.", ⟨[]⟩, false, []⟩ :=
  ⟨trim_merge_reject_separator_names.1 engOk ⟨[]⟩ "../a.mp4" "0" "1" "out.mp4" (by decide),
   trim_merge_reject_separator_names.2 engOk (fun _ => "aac") ⟨[]⟩ "v.mp4" "sub/a.aac" "out.mp4"
     (by decide)⟩

/-- C8: a `transpose` request whose `dir` value lies outside `[0, 3]` is
rejected with the invalid-parameter message once the earlier checks pass:
the engine is never invoked and the filesystem (in particular the output
name) is untouched. -/
theorem transpose_dir_out_of_range_rejected (engine : Engine) (fs : FS)
    (input_file : String) (params : Params) (output_file : String)
    (kv0 : String × PValue) (d : Int)
    (hin : fs.existsFile (joinMedia input_file) = true)
    (hall : hasAllParams "transpose" params = true)
    (hout : fs.existsFile (joinMedia output_file) = false)
    (hext : hasExtIn VIDEO_EXTENSIONS output_file = true)
    (hfind : params.find? (fun kv => kv.1 == "dir") = some kv0)
    (hval : kv0.2 = .int d)
    (hrange : d < 0 ∨ 3 < d) :
    transform_video engine fs input_file "transpose" params output_file =
      ⟨.ok "Error: dir must be between 0 and 3", fs, []⟩ := by
  have hb : (decide (0 ≤ d) && decide (d ≤ 3)) = false := by
    rcases hrange with h | h
    · simp [decide_eq_false (not_le.mpr h)]
    · simp [decide_eq_false (not_le.mpr h)]
  simp only [transform_video, compileFilter, hin, hout, hext, hall, hfind, hval, hb,
    Bool.not_true, Bool.not_false, if_false, if_true]
  simp [knownTransform, TRANSFORM_PARAMS]

/-- C8 witness: `dir = 5` on an otherwise valid transpose request. -/
theorem transpose_dir_out_of_range_rejected_witness :
    transform_video engOk fsIn "in.mp4" "transpose" [("dir", .int 5)] "out.mp4" =
      ⟨.ok "Error: dir must be between 0 and 3", fsIn, []⟩ :=
  transpose_dir_out_of_range_rejected engOk fsIn "in.mp4" [("dir", .int 5)] "out.mp4"
    ("dir", .int 5) 5 (by decide) (by decide) (by decide) (by decide) (by decide) rfl
    (Or.inr (by decide))

/-- C9: the merge codec-compatibility check — `flac` into an `.mp4` container
is incompatible, `aac` and `mp3` are compatible, any container not governed
by the matrix (not `.mp4`) accepts every codec, and an incompatible probe
result makes `merge_audio_video` fail with the compatibility message before
any engine invocation. -/
theorem checkCompatibility_matrix_spec :
    checkCompatibility "out.mp4" "flac" = false ∧
    checkCompatibility "out.mp4" "aac" = true ∧
    checkCompatibility "out.mp4" "mp3" = true ∧
    (∀ output_file codec : String, mp4Governed output_file = false →
      checkCompatibility output_file codec = true) ∧
    (∀ (engine : Engine) (probe : String → String) (fs : FS)
        (video_file audio_file output_file : String),
      (containsSep video_file || containsSep audio_file || containsSep output_file) = false →
      fs.existsFile (joinMedia video_file) = true →
      fs.existsFile (joinMedia audio_file) = true →
      hasExtIn AUDIO_EXTENSIONS audio_file = true →
      fs.existsFile (joinMedia output_file) = false →
      hasExtIn VIDEO_EXTENSIONS output_file = true →
      probe (joinMedia audio_file) = "flac" →
      mp4Governed output_file = true →
      merge_audio_video engine probe fs video_file audio_file output_file =
        ⟨"Error: Audio codec flac is not compatible with MP4 output. Use AAC or MP3.",
          fs, true, []⟩) := by
  refine ⟨by decide, by decide, by decide, ?_, ?_⟩
  · intro output_file codec hgov
    simp [checkCompatibility, hgov]
  · intro engine probe fs video_file audio_file output_file hsep hv ha haext hout hoext hprobe hgov
    simp only [merge_audio_video, checkCompatibility, hsep, hv, ha, haext, hout, hoext, hprobe,
      hgov, Bool.not_true, Bool.not_false, if_true, if_false]
    rfl

/-- C9 witness: the non-governed-container conjunct at `.avi`/`opus`, and the
pre-engine rejection of a `flac` probe for an `.mp4` merge. -/
theorem checkCompatibility_matrix_spec_witness :
    checkCompatibility "out.avi" "opus" = true ∧
    merge_audio_video engOk (fun _ => "flac")
        ⟨[("E:/project/v.mp4", "V"), ("E:/project/a.flac", "A")]⟩ "v.mp4" "a.flac" "out.mp4" =
      ⟨"Error: Audio codec flac is not compatible with MP4 output. Use AAC or MP3.",
        ⟨[("E:/project/v.mp4", "V"), ("E:/project/a.flac", "A")]⟩, true, []⟩ :=
  ⟨checkCompatibility_matrix_spec.2.2.2.1 "out.avi" "opus" (by decide),
   checkCompatibility_matrix_spec.2.2.2.2 engOk (fun _ => "flac")
     ⟨[("E:/project/v.mp4", "V"), ("E:/project/a.flac", "A")]⟩ "v.mp4" "a.flac" "out.mp4"
     (by decide) (by decide) (by decide) (by decide) (by decide) (by decide) rfl (by decide)⟩

/-- C5 (amended): the actual short-circuit validation order of
`transform_video` is input-existence, known-kind, schema-completeness,
output-collision, output-extension (schema completeness *precedes* the
AlreadyExists check, and there is no name-safety check), each failure
reported with its own distinct message and no engine invocation; in
`merge_audio_video` an existing output is still reported as AlreadyExists
before the codec probe — the only check that reads input content. -/
theorem transform_video_validation_order :
    (∀ (engine : Engine) (fs : FS) (input_file transformation : String) (params : Params)
        (output_file : String),
      fs.existsFile (joinMedia input_file) = false →
      transform_video engine fs input_file transformation params output_file =
        ⟨.ok s!"Error: Input file {input_file} not found.", fs, []⟩) ∧
    (∀ (engine : Engine) (fs : FS) (input_file transformation : String) (params : Params)
        (output_file : String),
      fs.existsFile (joinMedia input_file) = true →
      knownTransform transformation = false →
      transform_video engine fs input_file transformation params output_file =
        ⟨.ok ("Error: Invalid transformation. Must be one of " ++
            pyListRepr (TRANSFORM_PARAMS.map (fun kv => kv.1))), fs, []⟩) ∧
    (∀ (engine : Engine) (fs : FS) (input_file transformation : String) (params : Params)
        (output_file : String),
      fs.existsFile (joinMedia input_file) = true →
      knownTransform transformation = true →
      hasAllParams transformation params = false →
      transform_video engine fs input_file transformation params output_file =
        ⟨.ok ("Error: Missing parameters for " ++ transformation ++ ". Required: " ++
            pyListRepr (requiredOf transformation)), fs, []⟩) ∧
    (∀ (engine : Engine) (fs : FS) (input_file transformation : String) (params : Params)
        (output_file : String),
      fs.existsFile (joinMedia input_file) = true →
      knownTransform transformation = true →
      hasAllParams transformation params = true →
      fs.existsFile (joinMedia output_file) = true →
      transform_video engine fs input_file transformation params output_file =
        ⟨.ok s!"Error: Output file {output_file} already exists.", fs, []⟩) ∧
    (∀ (engine : Engine) (fs : FS) (input_file transformation : String) (params : Params)
        (output_file : String),
      fs.existsFile (joinMedia input_file) = true →
      knownTransform transformation = true →
      hasAllParams transformation params = true →
      fs.existsFile (joinMedia output_file) = false →
      hasExtIn VIDEO_EXTENSIONS output_file = false →
      transform_video engine fs input_file transformation params output_file =
        ⟨.ok ("Error: Output file must have a video extension (" ++ videoExtList ++ ")"),
          fs, []⟩) ∧
    (∀ (engine : Engine) (probe : String → String) (fs : FS)
        (video_file audio_file output_file : String),
      (containsSep video_file || containsSep audio_file || containsSep output_file) = false →
      fs.existsFile (joinMedia video_file) = true →
      fs.existsFile (joinMedia audio_file) = true →
      hasExtIn AUDIO_EXTENSIONS audio_file = true →
      fs.existsFile (joinMedia output_file) = true →
      merge_audio_video engine probe fs video_file audio_file output_file =
        ⟨s!"Error: Output file {output_file} already exists.", fs, false, []⟩) := by
  refine ⟨?_, ?_, ?_, ?_, ?_, ?_⟩
  · intro engine fs input_file transformation params output_file h
    simp [transform_video, h]
  · intro engine fs input_file transformation params output_file hin hk
    simp [transform_video, hin, hk]
  · intro engine fs input_file transformation params output_file hin hk hall
    simp [transform_video, hin, hk, hall]
  · intro engine fs input_file transformation params output_file hin hk hall hout
    simp [transform_video, hin, hk, hall, hout]
  · intro engine fs input_file transformation params output_file hin hk hall hout hext
    simp [transform_video, hin, hk, hall, hout, hext]
  · intro engine probe fs video_file audio_file output_file hsep hv ha haext hout
    simp [merge_audio_video, hsep, hv, ha, haext, hout]

/-- C5 witness: each ordering conjunct exercised at a concrete request. -/
theorem transform_video_validation_order_witness :
    transform_video engOk fsIn "gone.mp4" "crop" [] "out.mp4" =
      ⟨.ok "Error: Input file gone.mp4 not found.", fsIn, []⟩ ∧
    transform_video engOk fsIn "in.mp4" "blur" [] "out.mp4" =
      ⟨.ok ("Error: Invalid transformation. Must be one of " ++
          pyListRepr (TRANSFORM_PARAMS.map (fun kv => kv.1))), fsIn, []⟩ ∧
    transform_video engOk fsIn "in.mp4" "scale" [("width", .int 10)] "out.mp4" =
      ⟨.ok ("Error: Missing parameters for scale. Required: " ++
          pyListRepr (requiredOf "scale")), fsIn, []⟩ ∧
    transform_video engOk fsIn "in.mp4" "scale" [("width", .int 10), ("height", .int 10)]
        "in.mp4" = ⟨.ok "Error: Output file in.mp4 already exists.", fsIn, []⟩ ∧
    transform_video engOk fsIn "in.mp4" "scale" [("width", .int 10), ("height", .int 10)]
        "out.txt" =
      ⟨.ok ("Error: Output file must have a video extension (" ++ videoExtList ++ ")"),
        fsIn, []⟩ ∧
    merge_audio_video engOk (fun _ => "aac")
        ⟨[("E:/project/v.mp4", "V"), ("E:/project/a.aac", "A"), ("E:/project/out.mp4", "O")]⟩
        "v.mp4" "a.aac" "out.mp4" =
      ⟨"Error: Output file out.mp4 already exists.",
        ⟨[("E:/project/v.mp4", "V"), ("E:/project/a.aac", "A"), ("E:/project/out.mp4", "O")]⟩,
        false, []⟩ :=
  ⟨transform_video_validation_order.1 engOk fsIn "gone.mp4" "crop" [] "out.mp4" (by decide),
   transform_video_validation_order.2.1 engOk fsIn "in.mp4" "blur" [] "out.mp4"
     (by decide) (by decide),
   transform_video_validation_order.2.2.1 engOk fsIn "in.mp4" "scale" [("width", .int 10)]
     "out.mp4" (by decide) (by decide) (by decide),
   transform_video_validation_order.2.2.2.1 engOk fsIn "in.mp4" "scale"
     [("width", .int 10), ("height", .int 10)] "in.mp4" (by decide) (by decide) (by decide)
     (by decide),
   transform_video_validation_order.2.2.2.2.1 engOk fsIn "in.mp4" "scale"
     [("width", .int 10), ("height", .int 10)] "out.txt" (by decide) (by decide) (by decide)
     (by decide) (by decide),
   transform_video_validation_order.2.2.2.2.2 engOk (fun _ => "aac")
     ⟨[("E:/project/v.mp4", "V"), ("E:/project/a.aac", "A"), ("E:/project/out.mp4", "O")]⟩
     "v.mp4" "a.aac" "out.mp4" (by decide) (by decide) (by decide) (by decide) (by decide)⟩

/-- C7 (amended): for `transform_video`, `trim_video` and `merge_audio_video`
a request that never reaches the engine (in particular every validation
failure) leaves the filesystem exactly as it was; `concatenate_videos` is the
exception — once the output-name checks pass it creates the temporary
concat-list file before validating inputs, and when an input check fails
(no engine invocation) that temporary file is still present afterwards. -/
theorem validation_failure_filesystem_effects :
    (∀ (engine : Engine) (fs : FS) (input_file transformation : String) (params : Params)
        (output_file : String),
      (transform_video engine fs input_file transformation params output_file).invoked = [] →
      (transform_video engine fs input_file transformation params output_file).fs = fs) ∧
    (∀ (engine : Engine) (fs : FS) (input_file start_time duration output_file : String),
      (trim_video engine fs input_file start_time duration output_file).invoked = [] →
      (trim_video engine fs input_file start_time duration output_file).fs = fs) ∧
    (∀ (engine : Engine) (probe : String → String) (fs : FS)
        (video_file audio_file output_file : String),
      (merge_audio_video engine probe fs video_file audio_file output_file).invoked = [] →
      (merge_audio_video engine probe fs video_file audio_file output_file).fs = fs) ∧
    (∀ (engine : Engine) (fs : FS) (tmpfile_path : String) (input_files : List String)
        (output_file : String),
      containsSep output_file = false →
      fs.existsFile (joinMedia output_file) = false →
      hasExtIn VIDEO_EXTENSIONS output_file = true →
      fs.existsFile tmpfile_path = false →
      (concatenate_videos engine fs tmpfile_path input_files output_file).invoked = [] →
      (concatenate_videos engine fs tmpfile_path input_files output_file).fs.existsFile
          tmpfile_path = true) := by
  refine ⟨?_, ?_, ?_, ?_⟩
  · intro engine fs input_file transformation params output_file
    simp only [transform_video]
    repeat' split
    all_goals simp
  · intro engine fs input_file start_time duration output_file
    simp only [trim_video]
    repeat' split
    all_goals simp
  · intro engine probe fs video_file audio_file output_file
    rcases Bool.eq_false_or_eq_true
        (containsSep video_file || containsSep audio_file || containsSep output_file) with c1 | c1
    on_goal 1 => simp [merge_audio_video, c1]
    rcases Bool.eq_false_or_eq_true (fs.existsFile (joinMedia video_file)) with c2 | c2
    on_goal 2 => simp [merge_audio_video, c1, c2]
    rcases Bool.eq_false_or_eq_true (fs.existsFile (joinMedia audio_file)) with c3 | c3
    on_goal 2 => simp [merge_audio_video, c1, c2, c3]
    rcases Bool.eq_false_or_eq_true (hasExtIn AUDIO_EXTENSIONS audio_file) with c4 | c4
    on_goal 2 => simp [merge_audio_video, c1, c2, c3, c4]
    rcases Bool.eq_false_or_eq_true (fs.existsFile (joinMedia output_file)) with c5 | c5
    on_goal 1 => simp [merge_audio_video, c1, c2, c3, c4, c5]
    rcases Bool.eq_false_or_eq_true (hasExtIn VIDEO_EXTENSIONS output_file) with c6 | c6
    on_goal 2 => simp [merge_audio_video, c1, c2, c3, c4, c5, c6]
    rcases Bool.eq_false_or_eq_true (probe (joinMedia audio_file) == "none") with c7 | c7
    on_goal 1 => simp [merge_audio_video, c1, c2, c3, c4, c5, c6, c7]
    rcases Bool.eq_false_or_eq_true (probe (joinMedia audio_file) == "error") with c8 | c8
    on_goal 1 => simp [merge_audio_video, c1, c2, c3, c4, c5, c6, c7, c8]
    rcases Bool.eq_false_or_eq_true
        (checkCompatibility output_file (probe (joinMedia audio_file))) with c9 | c9
    on_goal 2 => simp [merge_audio_video, c1, c2, c3, c4, c5, c6, c7, c8, c9]
    simp only [merge_audio_video, c1, c2, c3, c4, c5, c6, c7, c8, c9, Bool.not_true,
      Bool.not_false, Bool.false_eq_true, if_true, if_false]
    split
    all_goals simp
  · intro engine fs tmpfile_path input_files output_file h1 h2 h3 _h4
    simp only [concatenate_videos, h1, h2, h3, Bool.not_true, Bool.not_false, Bool.false_eq_true,
      if_true, if_false]
    repeat' split
    all_goals simp [FS.existsFile_write]

/-- C7 witness: a failed parameter check in `transform_video` leaves the
filesystem unchanged, while a failed input check in `concatenate_videos`
leaves the fresh temporary list file behind. -/
theorem validation_failure_filesystem_effects_witness :
    (transform_video engOk fsIn "in.mp4" "crop" [] "out.mp4").fs = fsIn ∧
    (concatenate_videos engOk ⟨[]⟩ "/tmp/tmpcat2" ["nope.mp4"] "out.mp4").fs.existsFile
        "/tmp/tmpcat2" = true :=
  ⟨validation_failure_filesystem_effects.1 engOk fsIn "in.mp4" "crop" [] "out.mp4" (by decide),
   validation_failure_filesystem_effects.2.2.2 engOk ⟨[]⟩ "/tmp/tmpcat2" ["nope.mp4"] "out.mp4"
     (by decide) (by decide) (by decide) (by decide) (by decide)⟩

theorem canonicalTemps_snoc {l : List String} (h : canonicalTemps l) :
    canonicalTemps (l ++ [tempName l.length]) := by
  unfold canonicalTemps
  have hlen : (l ++ [tempName l.length]).length = l.length + 1 := by simp
  rw [hlen, List.range_succ, List.map_append, List.map_cons, List.map_nil]
  exact congrArg (fun x => x ++ [tempName l.length]) h

theorem runStage_snd_temps (engine : Engine) (st : PipeSt) (k : StageKind)
    (filter : String) (encArgs : List String) :
    ((runStage engine st k filter encArgs).2).temps = st.temps ++ [tempName st.temps.length] := by
  simp only [runStage]
  split <;> rfl

theorem stepStage_canonical (engine : Engine) (acc : Option PipeFail × PipeSt) (k : StageKind)
    (filter : String) (encArgs : List String) (h : canonicalTemps acc.2.temps) :
    canonicalTemps ((stepStage engine acc k filter encArgs).2).temps := by
  rcases hx : acc.1 with _ | e
  · simp only [stepStage, hx]
    rw [runStage_snd_temps]
    exact canonicalTemps_snoc h
  · simp only [stepStage, hx]
    exact h

theorem colorStep_canonical (engine : Engine) (t : Template) (acc : Option PipeFail × PipeSt)
    (h : canonicalTemps acc.2.temps) :
    canonicalTemps ((colorStep engine t acc).2).temps := by
  rcases t with ⟨tc, te, tv, tf, tn⟩
  cases tc <;> cases te <;> cases tv <;>
    first
      | exact h
      | exact stepStage_canonical engine acc .color _ colorEncArgs h

theorem fpsStep_canonical (engine : Engine) (t : Template) (acc : Option PipeFail × PipeSt)
    (h : canonicalTemps acc.2.temps) :
    canonicalTemps ((fpsStep engine t acc).2).temps := by
  rcases t with ⟨tc, te, tv, tf, tn⟩
  cases tf <;>
    first
      | exact h
      | exact stepStage_canonical engine acc .fps _ stdEncArgs h

theorem noiseStep_canonical (engine : Engine) (t : Template) (acc : Option PipeFail × PipeSt)
    (h : canonicalTemps acc.2.temps) :
    canonicalTemps ((noiseStep engine t acc).2).temps := by
  rcases t with ⟨tc, te, tv, tf, tn⟩
  cases tn <;>
    first
      | exact h
      | exact stepStage_canonical engine acc .noise _ stdEncArgs h

theorem runPipeline_canonical (engine : Engine) (fs : FS) (input_file : String) (t : Template) :
    canonicalTemps ((runPipeline engine fs input_file t).2).temps := by
  unfold runPipeline
  exact noiseStep_canonical engine t _
    (fpsStep_canonical engine t _
      (colorStep_canonical engine t _ rfl))

theorem apply_filter_template_temps_canonical (engine : Engine)
    (templates : String → Option Template) (fs : FS) (input_file template_name output_file :
    String) :
    canonicalTemps (apply_filter_template engine templates fs input_file template_name
      output_file).temps := by
  simp only [apply_filter_template]
  split
  · exact rfl
  split
  · exact rfl
  rename_i t heqT
  split
  · exact rfl
  split
  · exact rfl
  split
  · rename_i rc cmd st heq
    have hc := runPipeline_canonical engine fs input_file t
    rw [heq] at hc
    exact hc
  · rename_i st heq
    have hc := runPipeline_canonical engine fs input_file t
    rw [heq] at hc
    exact hc

/-- C3 (amended): the temporary artifact name allocated for the `j`-th stage
of *any* `apply_filter_template` run is the fixed literal `temp_j.mp4`
(`tempName j`), determined solely by the stage position — it does not depend
on the filesystem, input, template or output, so every run uses the same
name sequence and concurrent runs would collide; the original per-run
uniqueness claim is refuted by the counterexample. -/
theorem apply_filter_template_temp_names_fixed (engine : Engine)
    (templates : String → Option Template) (fs : FS)
    (input_file template_name output_file : String) (j : Nat)
    (hj : j < (apply_filter_template engine templates fs input_file template_name
        output_file).temps.length) :
    (apply_filter_template engine templates fs input_file template_name
        output_file).temps[j]? = some (tempName j) := by
  have hc := apply_filter_template_temps_canonical engine templates fs input_file template_name
    output_file
  unfold canonicalTemps at hc
  conv_lhs => rw [hc]
  simp [List.getElem?_range, hj]

/-- C3 witness: the first stage of a concrete run is named `temp_0.mp4`. -/
theorem apply_filter_template_temp_names_fixed_witness :
    (apply_filter_template engOk tplStore fsIn "in.mp4" "grain" "out.mp4").temps[0]? =
      some (tempName 0) :=
  apply_filter_template_temp_names_fixed engOk tplStore fsIn "in.mp4" "grain" "out.mp4" 0
    (by decide)

/-- C10: in `apply_filter_template` the fused color stage executes iff the
`curves`, `eq` and `vignette` keys are *all* present in the template; and a
template holding only a proper subset of those keys behaves exactly as if
the `curves` key were absent — the pipeline is unchanged, so such keys are
silently ignored rather than rejected or partially applied. -/
theorem color_stage_iff_all_three_groups
    (templates : String → Option Template) (fs : FS)
    (input_file template_name output_file : String) (t : Template)
    (ht : templates template_name = some t)
    (hin : fs.existsFile (joinMedia input_file) = true)
    (hout : fs.existsFile (joinMedia output_file) = false)
    (hext : hasExtIn VIDEO_EXTENSIONS output_file = true) :
    ((apply_filter_template (fun _ => none) templates fs input_file template_name
        output_file).stagesRun.contains .color) =
      (t.curves.isSome && t.eqg.isSome && t.vignette.isSome) ∧
    (∀ (engine : Engine) (fs2 : FS) (input2 : String) (c : Curves),
      t.eqg = none ∨ t.vignette = none →
      runPipeline engine fs2 input2 { t with curves := some c } =
        runPipeline engine fs2 input2 { t with curves := none }) := by
  constructor
  · simp only [apply_filter_template, hin, hout, hext, ht, Bool.not_true, Bool.not_false,
      Bool.false_eq_true, if_true, if_false]
    rcases t with ⟨tc, te, tv, tf, tn⟩
    cases tc <;> cases te <;> cases tv <;> cases tf <;> cases tn <;>
      simp [runPipeline, colorStep, fpsStep, noiseStep, stepStage, runStage] <;>
      decide
  · intro engine fs2 input2 c h
    rcases t with ⟨tc, te, tv, tf, tn⟩
    rcases h with h | h
    · cases te
      · cases tv <;> rfl
      · exact absurd h (by simp)
    · cases tv
      · cases te <;> rfl
      · exact absurd h (by simp)

/-- C10 witness: a noise-only template runs no color stage, and adding a
`curves` group alone to it leaves the pipeline unchanged. -/
theorem color_stage_iff_all_three_groups_witness :
    ((apply_filter_template (fun _ => none) tplStore fsIn "in.mp4" "grain"
        "out.mp4").stagesRun.contains .color) = false ∧
    runPipeline engOk fsIn "in.mp4" { tplNoise with curves := some ⟨"r", "g", "b"⟩ } =
      runPipeline engOk fsIn "in.mp4" { tplNoise with curves := none } :=
  ⟨(color_stage_iff_all_three_groups tplStore fsIn "in.mp4" "grain" "out.mp4" tplNoise rfl
      (by decide) (by decide) (by decide)).1,
   (color_stage_iff_all_three_groups tplStore fsIn "in.mp4" "grain" "out.mp4" tplNoise rfl
      (by decide) (by decide) (by decide)).2 engOk fsIn "in.mp4" ⟨"r", "g", "b"⟩ (Or.inl rfl)⟩
